import Mathlib

/-!
Shallow embedding of the Scarlett backend core (src/Backend/server.js and
src/Backend/middleware/authMiddleware.js): the Session Tracker (the three
/api/monitoring HTTP handlers over the global `userVisitTimes` and
`pageVisitLogged` maps), the auth middleware, and the socket.io signaling
relay. JavaScript objects keyed by user id are modelled as functions
`String → Option _` (a JS object holds at most one value per key; a deleted
key reads as `undefined`, i.e. `none`, and `pageVisitLogged[userId]` reads
as falsy when absent). Time is epoch milliseconds as `Int`; `Math.floor` of
a millisecond difference divided by 1000 is `Int.fdiv _ 1000`.
-/

namespace Scarlett

/-- A JSON-ish value stored in an activity record's `details` object.
`date` is a JS `Date` object (epoch milliseconds), distinct from a plain
string so the kind of a stored timestamp is observable. -/
inductive JsonVal where
  | str (s : String)
  | num (n : Int)
  | date (t : Int)
deriving DecidableEq

/-- A JS object used as a `details` payload: at most one value per key. -/
def Details : Type := String → Option JsonVal

/-- JS property assignment on an object (the effect of spread-with-override,
as in `\x7b...details, timestamp\x7d`). -/
def objSet (d : Details) (k : String) (v : JsonVal) : Details :=
  fun k2 => if k2 = k then some v else d k2

/-- A row handed to `connection.query('INSERT INTO activities ...')`:
`(user_id, event_type, details)`. -/
structure ActivityRecord where
  user_id : String
  event_type : String
  details : Details

/-- The server's shared per-user state: `userVisitTimes` (a visit object
holding `visitTime`, modelled as the stored epoch-ms value) and
`pageVisitLogged` (a JS object whose absent keys read falsy). -/
structure TrackerState where
  userVisitTimes : String → Option Int
  pageVisitLogged : String → Bool

/-- The initial state: both globals start as empty objects. -/
def initState : TrackerState :=
  ⟨fun _ => none, fun _ => false⟩

/-- The outcome of one handler invocation: the state after it, the list of
rows passed to the storage insert (in order), and the HTTP status sent. -/
structure StepResult where
  state : TrackerState
  inserts : List ActivityRecord
  status : Nat

/-- The `details` object built by the page-visit handler:
`\x7b action: 'Page Visit', timestamp \x7d` with `timestamp` a `Date`. -/
def pageVisitDetails (t : Int) : Details :=
  fun k =>
    if k = "action" then some (JsonVal.str "Page Visit")
    else if k = "timestamp" then some (JsonVal.date t)
    else none

/-- POST /api/monitoring/page-visit: if `pageVisitLogged[userId]` is falsy,
set it, store the visit time, and insert one "Page Visit" row (500 if the
insert errors, 200 otherwise); else answer 200 without touching state or
storage. The state mutation happens before the insert is attempted. -/
def recordVisit (st : TrackerState) (userId : String) (timestamp : Int)
    (storageOk : Bool) : StepResult :=
  if st.pageVisitLogged userId then
    ⟨st, [], 200⟩
  else
    ⟨⟨fun u => if u = userId then some timestamp else st.userVisitTimes u,
      fun u => if u = userId then true else st.pageVisitLogged u⟩,
     [⟨userId, "Page Visit", pageVisitDetails timestamp⟩],
     if storageOk then 200 else 500⟩

/-- The `details` object built by the page-leave handler:
`\x7b action: 'Page Leave', timestamp, timeSpent \x7d`. -/
def pageLeaveDetails (t timeSpent : Int) : Details :=
  fun k =>
    if k = "action" then some (JsonVal.str "Page Leave")
    else if k = "timestamp" then some (JsonVal.date t)
    else if k = "timeSpent" then some (JsonVal.num timeSpent)
    else none

/-- POST /api/monitoring/page-leave: compute
`timeSpent = Math.floor((timestamp - visitTime) / 1000)` when a visit time
is stored, else 0; delete both per-user entries; insert one "Page Leave"
row (500 on insert error, 200 otherwise). -/
def recordLeave (st : TrackerState) (userId : String) (timestamp : Int)
    (storageOk : Bool) : StepResult :=
  let timeSpent : Int :=
    match st.userVisitTimes userId with
    | some vt => Int.fdiv (timestamp - vt) 1000
    | none => 0
  ⟨⟨fun u => if u = userId then none else st.userVisitTimes u,
    fun u => if u = userId then false else st.pageVisitLogged u⟩,
   [⟨userId, "Page Leave", pageLeaveDetails timestamp timeSpent⟩],
   if storageOk then 200 else 500⟩

/-- The decimal digit character for a digit value (values ≥ 10 cannot arise
from the clock fields fed to it). -/
def digitChar (k : Nat) : Char :=
  match k with
  | 0 => '0'
  | 1 => '1'
  | 2 => '2'
  | 3 => '3'
  | 4 => '4'
  | 5 => '5'
  | 6 => '6'
  | 7 => '7'
  | 8 => '8'
  | 9 => '9'
  | _ => '9'

/-- Two-digit zero-padded decimal rendering of a clock field. -/
def pad2 (n : Nat) : String :=
  String.mk [digitChar (n / 10 % 10), digitChar (n % 10)]

/-- Models the JS built-in
`new Date().toLocaleTimeString('en-US', \x7b hour12: false \x7d)` applied to
a clock reading h:m:s — a 24-hour "HH:MM:SS" time-of-day string with no
date component (ECMA-402 en-US, hourCycle h23, two-digit fields). -/
def timeString24 (h m s : Nat) : String :=
  pad2 h ++ ":" ++ pad2 m ++ ":" ++ pad2 s

/-- POST /api/monitoring/activity: take `event` and `details` from the body,
stamp `details` with the server's time-of-day string (spread with override:
`\x7b...details, timestamp\x7d`), and insert one row with
`event_type = event`; no per-user state is read or written. The server
clock reading at handling time is (h, m, s). -/
def recordActivity (st : TrackerState) (userId eventName : String)
    (d : Details) (h m s : Nat) (storageOk : Bool) : StepResult :=
  ⟨st,
   [⟨userId, eventName, objSet d "timestamp" (JsonVal.str (timeString24 h m s))⟩],
   if storageOk then 200 else 500⟩

/-- One Session Tracker request, with the data the handler draws from the
request and the environment (timestamps, clock reading, insert outcome). -/
inductive TrackerOp where
  | visit (u : String) (t : Int) (ok : Bool)
  | leave (u : String) (t : Int) (ok : Bool)
  | activity (u e : String) (d : Details) (h m s : Nat) (ok : Bool)

/-- The state after one request is handled. -/
def applyOp (st : TrackerState) : TrackerOp → TrackerState
  | TrackerOp.visit u t ok => (recordVisit st u t ok).state
  | TrackerOp.leave u t ok => (recordLeave st u t ok).state
  | TrackerOp.activity u e d h m s ok => (recordActivity st u e d h m s ok).state

/-- The state after a sequence of requests is handled in order. -/
def runOps : TrackerState → List TrackerOp → TrackerState
  | st, [] => st
  | st, op :: rest => runOps (applyOp st op) rest

/-- The number of open visit sessions (stored visit times) a state holds for
a user: a JS object stores at most one value per key. -/
def openCount (st : TrackerState) (u : String) : Nat :=
  match st.userVisitTimes u with
  | some _ => 1
  | none => 0

/-- Two near-simultaneous RecordVisit requests for the same user: Node's
event loop runs each handler's synchronous check-then-set section to
completion before the other starts, so the two requests serialize; `tA` is
the timestamp of whichever request is handled first. The pair is the final
state and the concatenation of the rows both calls insert. -/
def twoVisitsSerialized (st : TrackerState) (u : String) (tA tB : Int) :
    TrackerState × List ActivityRecord :=
  ((recordVisit (recordVisit st u tA true).state u tB true).state,
   (recordVisit st u tA true).inserts ++
     (recordVisit (recordVisit st u tA true).state u tB true).inserts)

/-- One of the three signaling event names a socket can emit. -/
inductive SignalKind where
  | offer
  | answer
  | iceCandidate
deriving DecidableEq

/-- The relay's state: the set of currently connected sockets, by id. -/
structure RelayState where
  peers : List String

/-- io.on('connection'): the new socket joins the membership set; no token
or identity check is performed at this layer. -/
def onConnection (st : RelayState) (sid : String) : RelayState :=
  ⟨sid :: st.peers⟩

/-- socket.on('disconnect'): the socket leaves the membership set. -/
def onDisconnect (st : RelayState) (sid : String) : RelayState :=
  ⟨st.peers.filter (fun p => !(p == sid))⟩

/-- A delivery of one signaling event to one connected socket. -/
structure Delivery where
  target : String
  kind : SignalKind
  payload : String
deriving DecidableEq

/-- socket.broadcast.emit for any of the three handlers: the received
payload is re-emitted verbatim, under the same event name, to every
connected socket other than the sender. -/
def broadcastEmit (st : RelayState) (sender : String) (k : SignalKind)
    (payload : String) : List Delivery :=
  (st.peers.filter (fun p => !(p == sender))).map (fun p => ⟨p, k, payload⟩)

/-- JS `String.prototype.split` with a one-character separator, on the
character list: `''.split(sep)` is `['']`, and each separator occurrence
starts a new chunk. -/
def splitCharsOn (sep : Char) : List Char → List (List Char)
  | [] => [[]]
  | c :: cs =>
    let r := splitCharsOn sep cs
    if c = sep then [] :: r
    else
      match r with
      | [] => [[c]]
      | g :: gs => (c :: g) :: gs

/-- JS `s.split(sep)` for a one-character separator. -/
def jsSplit (s : String) (sep : Char) : List String :=
  (splitCharsOn sep s.data).map String.mk

/-- The auth middleware's token extraction:
`authHeader && authHeader.split(' ')[1]`. An absent header yields a nullish
token; a present header yields its second space-separated chunk when one
exists (and an empty header string is falsy in JS, so it is itself the
token). -/
def extractToken (authHeader : Option String) : Option String :=
  match authHeader with
  | none => none
  | some h => if h = "" then some "" else (jsSplit h ' ').get? 1

/-- What `authenticateToken` decides for a request: reject with a status
(401 or 403) without calling the handler, or pass the verified user on. -/
inductive AuthOutcome where
  | reject (status : Nat)
  | proceed (user : String)
deriving DecidableEq

/-- src/Backend/middleware/authMiddleware.js: a nullish token is rejected
with 401; a token `jwt.verify` fails on is rejected with 403; otherwise the
verified user is attached and `next()` is called. `verify` abstracts
`jwt.verify` with the configured secret: the verified user id on success. -/
def authenticateToken (authHeader : Option String)
    (verify : String → Option String) : AuthOutcome :=
  match extractToken authHeader with
  | none => AuthOutcome.reject 401
  | some token =>
    match verify token with
    | none => AuthOutcome.reject 403
    | some user => AuthOutcome.proceed user

/-- A monitoring route behind `app.use('/api/monitoring', authenticateToken)`:
the handler (abstracted as the status it answers for a given user) runs only
when the middleware proceeds. The Bool records whether the handler ran. -/
def runProtected (authHeader : Option String)
    (verify : String → Option String) (handler : String → Nat) : Nat × Bool :=
  match authenticateToken authHeader verify with
  | AuthOutcome.reject s => (s, false)
  | AuthOutcome.proceed u => (handler u, true)

/-- Claim C1: calling RecordVisit twice in succession with no intervening
RecordLeave, starting from a state with no open session for the user,
creates exactly one open session and inserts exactly one "Page Visit" row;
the second call writes nothing, keeps the stored visit time, leaves the
state untouched and still answers 200. -/
theorem recordVisit_twice_is_once (st : TrackerState) (u : String)
    (t1 t2 : Int) (h : st.pageVisitLogged u = false) :
    (recordVisit st u t1 true).inserts ++
        (recordVisit (recordVisit st u t1 true).state u t2 true).inserts =
      [⟨u, "Page Visit", pageVisitDetails t1⟩] ∧
    (recordVisit (recordVisit st u t1 true).state u t2 true).inserts = [] ∧
    (recordVisit (recordVisit st u t1 true).state u t2 true).status = 200 ∧
    (recordVisit (recordVisit st u t1 true).state u t2 true).state =
      (recordVisit st u t1 true).state ∧
    (recordVisit (recordVisit st u t1 true).state u t2 true).state.userVisitTimes u =
      some t1 ∧
    (recordVisit (recordVisit st u t1 true).state u t2 true).state.pageVisitLogged u =
      true := by
  simp [recordVisit, h]

/-- Witness for C1 at a concrete input: the empty initial state, user "alice",
visit timestamps 1000 and 2500. -/
theorem recordVisit_twice_is_once_witness :
    (recordVisit initState "alice" 1000 true).inserts ++
        (recordVisit (recordVisit initState "alice" 1000 true).state "alice" 2500 true).inserts =
      [⟨"alice", "Page Visit", pageVisitDetails 1000⟩] ∧
    (recordVisit (recordVisit initState "alice" 1000 true).state "alice" 2500 true).inserts = [] ∧
    (recordVisit (recordVisit initState "alice" 1000 true).state "alice" 2500 true).status = 200 ∧
    (recordVisit (recordVisit initState "alice" 1000 true).state "alice" 2500 true).state =
      (recordVisit initState "alice" 1000 true).state ∧
    (recordVisit (recordVisit initState "alice" 1000 true).state "alice" 2500 true).state.userVisitTimes "alice" =
      some 1000 ∧
    (recordVisit (recordVisit initState "alice" 1000 true).state "alice" 2500 true).state.pageVisitLogged "alice" =
      true :=
  recordVisit_twice_is_once initState "alice" 1000 2500 rfl

theorem digitChar_isDigit (k : Nat) : (digitChar k).isDigit = true := by
  unfold digitChar
  split <;> decide

/-- Claim C2: RecordLeave inserts one "Page Leave" row whose `timeSpent` is
`Math.floor((t1 - t0) / 1000)` when a visit time t0 is stored, and 0 when
none is; in the no-session case the call still answers 200. -/
theorem recordLeave_timeSpent (st : TrackerState) (u : String) (t1 : Int) :
    (∀ t0, st.userVisitTimes u = some t0 →
      (recordLeave st u t1 true).inserts =
        [⟨u, "Page Leave", pageLeaveDetails t1 (Int.fdiv (t1 - t0) 1000)⟩] ∧
      pageLeaveDetails t1 (Int.fdiv (t1 - t0) 1000) "timeSpent" =
        some (JsonVal.num (Int.fdiv (t1 - t0) 1000)) ∧
      (recordLeave st u t1 true).status = 200) ∧
    (st.userVisitTimes u = none →
      (recordLeave st u t1 true).inserts =
        [⟨u, "Page Leave", pageLeaveDetails t1 0⟩] ∧
      pageLeaveDetails t1 0 "timeSpent" = some (JsonVal.num 0) ∧
      (recordLeave st u t1 true).status = 200) := by
  constructor
  · intro t0 h
    refine ⟨?_, by simp [pageLeaveDetails], by simp [recordLeave]⟩
    simp [recordLeave, h]
  · intro h
    refine ⟨?_, by simp [pageLeaveDetails], by simp [recordLeave]⟩
    simp [recordLeave, h]

/-- Witness for C2 at concrete inputs: a state with an open session for
"alice" at t0 = 5000 and leave at t1 = 7300 (timeSpent = 2), and the empty
state with no session (timeSpent = 0). -/
theorem recordLeave_timeSpent_witness :
    ((recordLeave ⟨fun u => if u = "alice" then some 5000 else none,
        fun u => u == "alice"⟩ "alice" 7300 true).inserts =
      [⟨"alice", "Page Leave", pageLeaveDetails 7300 (Int.fdiv (7300 - 5000) 1000)⟩] ∧
      pageLeaveDetails 7300 (Int.fdiv (7300 - 5000) 1000) "timeSpent" =
        some (JsonVal.num (Int.fdiv (7300 - 5000) 1000)) ∧
      (recordLeave ⟨fun u => if u = "alice" then some 5000 else none,
        fun u => u == "alice"⟩ "alice" 7300 true).status = 200) ∧
    ((recordLeave initState "bob" 7300 true).inserts =
      [⟨"bob", "Page Leave", pageLeaveDetails 7300 0⟩] ∧
      pageLeaveDetails 7300 0 "timeSpent" = some (JsonVal.num 0) ∧
      (recordLeave initState "bob" 7300 true).status = 200) :=
  ⟨(recordLeave_timeSpent ⟨fun u => if u = "alice" then some 5000 else none,
      fun u => u == "alice"⟩ "alice" 7300).1 5000 (by simp),
   (recordLeave_timeSpent initState "bob" 7300).2 rfl⟩

/-- Claim C3: after RecordLeave (whatever the prior state, including one
with no open session), a RecordVisit is not treated as a duplicate: it
answers 200, stores a fresh visit time and inserts a new "Page Visit" row. -/
theorem visit_after_leave_is_fresh (st : TrackerState) (u : String)
    (tL tV : Int) :
    (recordVisit (recordLeave st u tL true).state u tV true).status = 200 ∧
    (recordVisit (recordLeave st u tL true).state u tV true).inserts =
      [⟨u, "Page Visit", pageVisitDetails tV⟩] ∧
    (recordVisit (recordLeave st u tL true).state u tV true).state.userVisitTimes u =
      some tV ∧
    (recordVisit (recordLeave st u tL true).state u tV true).state.pageVisitLogged u =
      true := by
  simp [recordVisit, recordLeave]

/-- Claim C5: when the storage insert fails during RecordVisit, the caller
gets 500 and the in-memory mutation is not rolled back: the session stays
open, so a retry takes the duplicate no-op path, writes nothing and
answers 200 with the state unchanged. -/
theorem visit_storage_failure_no_rollback (st : TrackerState) (u : String)
    (t t2 : Int) (h : st.pageVisitLogged u = false) :
    (recordVisit st u t false).status = 500 ∧
    (recordVisit st u t false).inserts =
      [⟨u, "Page Visit", pageVisitDetails t⟩] ∧
    (recordVisit st u t false).state.pageVisitLogged u = true ∧
    (recordVisit st u t false).state.userVisitTimes u = some t ∧
    (recordVisit (recordVisit st u t false).state u t2 true).inserts = [] ∧
    (recordVisit (recordVisit st u t false).state u t2 true).status = 200 ∧
    (recordVisit (recordVisit st u t false).state u t2 true).state =
      (recordVisit st u t false).state := by
  simp [recordVisit, h]

/-- Witness for C5 at a concrete input: the empty initial state, user
"alice", failed visit at t = 1000, retry at t2 = 4000. -/
theorem visit_storage_failure_no_rollback_witness :
    (recordVisit initState "alice" 1000 false).status = 500 ∧
    (recordVisit initState "alice" 1000 false).inserts =
      [⟨"alice", "Page Visit", pageVisitDetails 1000⟩] ∧
    (recordVisit initState "alice" 1000 false).state.pageVisitLogged "alice" = true ∧
    (recordVisit initState "alice" 1000 false).state.userVisitTimes "alice" = some 1000 ∧
    (recordVisit (recordVisit initState "alice" 1000 false).state "alice" 4000 true).inserts = [] ∧
    (recordVisit (recordVisit initState "alice" 1000 false).state "alice" 4000 true).status = 200 ∧
    (recordVisit (recordVisit initState "alice" 1000 false).state "alice" 4000 true).state =
      (recordVisit initState "alice" 1000 false).state :=
  visit_storage_failure_no_rollback initState "alice" 1000 4000 rfl

/-- Claim C7: RecordActivity inserts exactly one row with
`event_type = event` and the caller's details stamped with the server
timestamp, unconditionally: the per-user state is untouched, and both the
inserted rows and the status are independent of the tracker state (hence of
whether a session is open). -/
theorem recordActivity_unconditional (st st2 : TrackerState) (u e : String)
    (d : Details) (hh mm ss : Nat) :
    (recordActivity st u e d hh mm ss true).state = st ∧
    (recordActivity st u e d hh mm ss true).status = 200 ∧
    (recordActivity st u e d hh mm ss true).inserts =
      [⟨u, e, objSet d "timestamp" (JsonVal.str (timeString24 hh mm ss))⟩] ∧
    (recordActivity st u e d hh mm ss true).inserts.map ActivityRecord.event_type =
      [e] ∧
    (recordActivity st2 u e d hh mm ss true).inserts =
      (recordActivity st u e d hh mm ss true).inserts ∧
    (recordActivity st2 u e d hh mm ss true).status =
      (recordActivity st u e d hh mm ss true).status := by
  simp [recordActivity]

/-- Claim C10: the timestamp RecordActivity stamps into `details` is a
24-hour "HH:MM:SS" time-of-day string (two colon-separated pairs of digit
characters, no date component), it overwrites whatever value the caller
supplied under "timestamp" (the stamped value is the server's for every
incoming `d`), and it is a plain string — unlike the `timestamp` stored by
RecordVisit and RecordLeave, which is a full `Date` value. -/
theorem recordActivity_timestamp_timeOfDay (st : TrackerState) (u e : String)
    (d : Details) (hh mm ss : Nat) (t tspent : Int) :
    ((recordActivity st u e d hh mm ss true).inserts.map
        (fun a => a.details "timestamp")) =
      [some (JsonVal.str (timeString24 hh mm ss))] ∧
    (∃ c1 c2 c3 c4 c5 c6 : Char,
      (timeString24 hh mm ss).data = [c1, c2, ':', c3, c4, ':', c5, c6] ∧
      c1.isDigit = true ∧ c2.isDigit = true ∧ c3.isDigit = true ∧
      c4.isDigit = true ∧ c5.isDigit = true ∧ c6.isDigit = true) ∧
    pageVisitDetails t "timestamp" = some (JsonVal.date t) ∧
    pageLeaveDetails t tspent "timestamp" = some (JsonVal.date t) := by
  refine ⟨by simp [recordActivity, objSet], ?_, by simp [pageVisitDetails],
    by simp [pageLeaveDetails]⟩
  exact ⟨digitChar (hh / 10 % 10), digitChar (hh % 10), digitChar (mm / 10 % 10),
    digitChar (mm % 10), digitChar (ss / 10 % 10), digitChar (ss % 10), rfl,
    digitChar_isDigit _, digitChar_isDigit _, digitChar_isDigit _,
    digitChar_isDigit _, digitChar_isDigit _, digitChar_isDigit _⟩

theorem inv_preserved (st : TrackerState) (op : TrackerOp)
    (h : ∀ u, st.pageVisitLogged u = true ↔ (st.userVisitTimes u).isSome = true) :
    ∀ u, (applyOp st op).pageVisitLogged u = true ↔
      ((applyOp st op).userVisitTimes u).isSome = true := by
  cases op with
  | visit u0 t ok =>
    intro u
    by_cases hl : st.pageVisitLogged u0
    · simp [applyOp, recordVisit, hl, h u]
    · by_cases he : u = u0 <;>
        simp [applyOp, recordVisit, hl, he, h u]
  | leave u0 t ok =>
    intro u
    by_cases he : u = u0 <;>
      simp [applyOp, recordLeave, he, h u]
  | activity u0 e d hh mm ss ok =>
    intro u
    simp [applyOp, recordActivity, h u]

theorem inv_runOps (ops : List TrackerOp) :
    ∀ st : TrackerState,
      (∀ u, st.pageVisitLogged u = true ↔ (st.userVisitTimes u).isSome = true) →
      ∀ u, (runOps st ops).pageVisitLogged u = true ↔
        ((runOps st ops).userVisitTimes u).isSome = true := by
  induction ops with
  | nil => intro st h; exact h
  | cons op rest ih =>
    intro st h
    exact ih (applyOp st op) (inv_preserved st op h)

/-- Claim C8: in every state reachable from the initial state by any
sequence of the three operations, each user has at most one stored visit
time (a JS object holds one value per key, so the open-session count is at
most 1), and the user is marked logged exactly when a visit time is stored
for them. -/
theorem tracker_state_invariant (ops : List TrackerOp) (u : String) :
    openCount (runOps initState ops) u ≤ 1 ∧
    ((runOps initState ops).pageVisitLogged u = true ↔
      ((runOps initState ops).userVisitTimes u).isSome = true) := by
  refine ⟨?_, inv_runOps ops initState (by intro u2; simp [initState]) u⟩
  cases hx : (runOps initState ops).userVisitTimes u <;> simp [openCount, hx]

/-- Claim C9: two RecordVisit calls for the same user arriving
near-simultaneously serialize on Node's event loop (each handler's
check-then-set runs to completion), and in either serialization order the
outcome is exactly one open session and exactly one inserted "Page Visit"
row — the second call cannot also pass the no-open-session check. `tA` is
whichever of the two timestamps is handled first. -/
theorem concurrent_visits_once (st : TrackerState) (u : String) (tA tB : Int)
    (h : st.pageVisitLogged u = false) :
    (twoVisitsSerialized st u tA tB).2 =
      [⟨u, "Page Visit", pageVisitDetails tA⟩] ∧
    (twoVisitsSerialized st u tA tB).1.userVisitTimes u = some tA ∧
    (twoVisitsSerialized st u tA tB).1.pageVisitLogged u = true ∧
    openCount (twoVisitsSerialized st u tA tB).1 u = 1 := by
  simp [twoVisitsSerialized, recordVisit, h, openCount]

/-- Witness for C9 at a concrete input: the empty initial state, user
"alice", the orders (1000, 2000) and (2000, 1000). -/
theorem concurrent_visits_once_witness :
    ((twoVisitsSerialized initState "alice" 1000 2000).2 =
      [⟨"alice", "Page Visit", pageVisitDetails 1000⟩] ∧
    (twoVisitsSerialized initState "alice" 1000 2000).1.userVisitTimes "alice" =
      some 1000 ∧
    (twoVisitsSerialized initState "alice" 1000 2000).1.pageVisitLogged "alice" =
      true ∧
    openCount (twoVisitsSerialized initState "alice" 1000 2000).1 "alice" = 1) ∧
    ((twoVisitsSerialized initState "alice" 2000 1000).2 =
      [⟨"alice", "Page Visit", pageVisitDetails 2000⟩] ∧
    (twoVisitsSerialized initState "alice" 2000 1000).1.userVisitTimes "alice" =
      some 2000 ∧
    (twoVisitsSerialized initState "alice" 2000 1000).1.pageVisitLogged "alice" =
      true ∧
    openCount (twoVisitsSerialized initState "alice" 2000 1000).1 "alice" = 1) :=
  ⟨concurrent_visits_once initState "alice" 1000 2000 rfl,
   concurrent_visits_once initState "alice" 2000 1000 rfl⟩

/-- Claim C4: for any of the three signaling kinds, a message sent by a
connected peer A while B and C are also connected is delivered, verbatim
and under the same kind, to B and to C — and to every connected peer other
than A — but never back to A. -/
theorem relay_broadcasts_to_others (st : RelayState) (A B C : String)
    (k : SignalKind) (payload : String) (hA : A ∈ st.peers)
    (hB : B ∈ st.peers) (hC : C ∈ st.peers) (hBA : B ≠ A) (hCA : C ≠ A) :
    Delivery.mk B k payload ∈ broadcastEmit st A k payload ∧
    Delivery.mk C k payload ∈ broadcastEmit st A k payload ∧
    (∀ dlv ∈ broadcastEmit st A k payload,
      dlv.target ≠ A ∧ dlv.kind = k ∧ dlv.payload = payload) ∧
    (∀ p ∈ st.peers, p ≠ A →
      Delivery.mk p k payload ∈ broadcastEmit st A k payload) := by
  have hin : ∀ p, p ∈ st.peers → p ≠ A →
      Delivery.mk p k payload ∈ broadcastEmit st A k payload := by
    intro p hp hpA
    unfold broadcastEmit
    refine List.mem_map.mpr ⟨p, ?_, rfl⟩
    exact List.mem_filter.mpr ⟨hp, by simp [hpA]⟩
  refine ⟨hin B hB hBA, hin C hC hCA, ?_, hin⟩
  intro dlv hd
  unfold broadcastEmit at hd
  obtain ⟨p, hp, rfl⟩ := List.mem_map.mp hd
  obtain ⟨hpm, hpne⟩ := List.mem_filter.mp hp
  refine ⟨?_, rfl, rfl⟩
  simpa using hpne

/-- Witness for C4 at a concrete input: peers s1, s2, s3 connected, s1
sends an offer with payload "sdp". -/
theorem relay_broadcasts_to_others_witness :
    Delivery.mk "s2" SignalKind.offer "sdp" ∈
      broadcastEmit ⟨["s1", "s2", "s3"]⟩ "s1" SignalKind.offer "sdp" ∧
    Delivery.mk "s3" SignalKind.offer "sdp" ∈
      broadcastEmit ⟨["s1", "s2", "s3"]⟩ "s1" SignalKind.offer "sdp" ∧
    (∀ dlv ∈ broadcastEmit ⟨["s1", "s2", "s3"]⟩ "s1" SignalKind.offer "sdp",
      dlv.target ≠ "s1" ∧ dlv.kind = SignalKind.offer ∧ dlv.payload = "sdp") ∧
    (∀ p ∈ (RelayState.mk ["s1", "s2", "s3"]).peers, p ≠ "s1" →
      Delivery.mk p SignalKind.offer "sdp" ∈
        broadcastEmit ⟨["s1", "s2", "s3"]⟩ "s1" SignalKind.offer "sdp") :=
  relay_broadcasts_to_others ⟨["s1", "s2", "s3"]⟩ "s1" "s2" "s3"
    SignalKind.offer "sdp" (by decide) (by decide) (by decide)
    (by decide) (by decide)

/-- Claim C6: a monitoring request with no bearer token is answered 401
without the handler running, and one whose token fails verification is
answered 403 without the handler running, whatever the verifier and
handler; the relay admits any connecting peer to membership with no such
check. -/
theorem auth_gates_monitoring_only (verify : String → Option String)
    (handler : String → Nat) :
    runProtected none verify handler = (401, false) ∧
    (∀ hdr, extractToken hdr = none →
      runProtected hdr verify handler = (401, false)) ∧
    (∀ hdr tok, extractToken hdr = some tok → verify tok = none →
      runProtected hdr verify handler = (403, false)) ∧
    (∀ st sid, sid ∈ (onConnection st sid).peers) := by
  refine ⟨rfl, ?_, ?_, ?_⟩
  · intro hdr he
    simp [runProtected, authenticateToken, he]
  · intro hdr tok he hv
    simp [runProtected, authenticateToken, he, hv]
  · intro st sid
    simp [onConnection]

/-- Witness for C6 at concrete inputs: a rejecting verifier and a constant
handler; an absent header gives 401, header "Bearer bad" gives 403, and
socket "s1" is admitted to an empty relay. -/
theorem auth_gates_monitoring_only_witness :
    runProtected none (fun _ => none) (fun _ => 200) = (401, false) ∧
    runProtected (some "Bearer") (fun _ => none) (fun _ => 200) = (401, false) ∧
    runProtected (some "Bearer bad") (fun _ => none) (fun _ => 200) = (403, false) ∧
    "s1" ∈ (onConnection ⟨[]⟩ "s1").peers :=
  ⟨(auth_gates_monitoring_only (fun _ => none) (fun _ => 200)).1,
   (auth_gates_monitoring_only (fun _ => none) (fun _ => 200)).2.1
     (some "Bearer") (by decide),
   (auth_gates_monitoring_only (fun _ => none) (fun _ => 200)).2.2.1
     (some "Bearer bad") "bad" (by decide) rfl,
   (auth_gates_monitoring_only (fun _ => none) (fun _ => 200)).2.2.2 ⟨[]⟩ "s1"⟩

end Scarlett
